import Mathlib

set_option maxRecDepth 8000

/-!
Shallow embedding of `programs/openbook-v2/src/state/switchboard_solana.rs`:
the Switchboard fixed-scale decimal, the packed aggregator account data, the
round-resolution policy `get_result`, the Borsh wire-format decimal bridge and
the error taxonomy, together with theorems about them.

Conventions of the embedding:
* Rust `u8`/`u32`/`u64` fields become `Nat`; `i64`/`i128` become `Int`, with
  the 128-bit bounds enforced explicitly wherever the source uses checked
  arithmetic (`checked_mul`, `checked_div`, overflow-checked `pow`).
* A Rust computation that can panic (an `unwrap` of `None`/`Err`, or an
  overflow in checked arithmetic) is modelled with `Option`, where `none`
  marks the panic; a conversion that can both panic and return a Rust error
  value is modelled with `RustOutcome`, where `.trap` marks the panic and
  `.err` an explicitly returned error value.
* `rust_decimal::Decimal` is modelled by its documented semantics: a mantissa
  of magnitude at most `2^96 - 1` with scale at most `MAX_PRECISION = 28`,
  denoting the number mantissa / 10^scale; `Decimal::cmp` compares exact
  numeric values, modelled by cross-multiplied integer comparison, and
  `to_u64` / `to_i64` truncate toward zero and range-check.
* The payload of an `f64` conversion is not modelled (floating point); only
  its success / error / panic verdict is, which is what the spec speaks about.
-/

namespace Switchboard

/-- Largest `i128` value, `2^127 - 1`. -/
def i128Max : Int := 2 ^ 127 - 1

/-- Smallest `i128` value, `-2^127`. -/
def i128Min : Int := -(2 ^ 127)

/-- Largest `u64` value, `2^64 - 1`. -/
def u64Max : Int := 2 ^ 64 - 1

/-- Largest `i64` value, `2^63 - 1`. -/
def i64Max : Int := 2 ^ 63 - 1

/-- Smallest `i64` value, `-2^63`. -/
def i64Min : Int := -(2 ^ 63)

/-- The error enum `SwitchboardError` of the source (`#[error_code]`),
with every variant, in source order. -/
inductive SwitchboardError where
  | InvalidAggregatorRound
  | InvalidStrDecimalConversion
  | DecimalConversionError
  | IntegerOverflowError
  | AccountDiscriminatorMismatch
  | VrfEmptyError
  | VrfCpiError
  | VrfCpiSignedError
  | AccountDeserializationError
  | StaleFeed
  | ConfidenceIntervalExceeded
  | InvalidAuthority
  | AllowedVarianceExceeded
  | InvalidFunctionInput
  | PdaDerivationError
  | IllegalExecuteAttempt
  | InvalidQuote
  | InvalidQueue
  | InvalidEnclaveSigner
  | InvalidNativeMint
  | MrEnclavesEmpty
  | InvalidMrEnclave
  | FunctionNotReady
  | UserRequestsDisabled
  | FunctionRoutinesDisabled
  | PermissionDenied
  | ConfigParameterLocked
  | FunctionServicesDisabled
  | ServiceDisabled
  | ServiceWorkerFull
  | ServiceWorkerEnclaveFull
  | ServiceAlreadyAssignedToWorker
deriving DecidableEq

/-- Outcome of a Rust conversion that can both panic and return an error
value: `.ok` a returned value, `.err` a returned Rust error value, `.trap`
a panic (an `unwrap` of a failed internal conversion). -/
inductive RustOutcome (α : Type) where
  | ok : α → RustOutcome α
  | err : SwitchboardError → RustOutcome α
  | trap : RustOutcome α
deriving DecidableEq

/-- `SwitchboardDecimal { mantissa: i128, scale: u32 }`; the number denoted is
mantissa × 10^(−scale). -/
structure SwitchboardDecimal where
  mantissa : Int
  scale : Nat
deriving DecidableEq

/-- `BorshDecimal { mantissa: i128, scale: u32 }`, the wire-format twin of
`SwitchboardDecimal`. -/
structure BorshDecimal where
  mantissa : Int
  scale : Nat
deriving DecidableEq

/-- A Solana public key: 32 raw bytes. -/
def Pubkey : Type := Fin 32 → Nat

/-- The all-zero public key. -/
def Pubkey.zeroed : Pubkey := fun _ => 0

/-- `Hash { data: [u8; 32] }`. -/
structure Hash where
  data : Fin 32 → Nat

/-- The all-zero hash. -/
def Hash.zeroed : Hash := ⟨fun _ => 0⟩

/-- `AggregatorResolutionMode`: `ModeRoundResolution = 0`,
`ModeSlidingResolution = 1`. -/
inductive AggregatorResolutionMode where
  | ModeRoundResolution
  | ModeSlidingResolution
deriving DecidableEq

/-- `AggregatorRound`, with every field of the source, in source order. -/
structure AggregatorRound where
  num_success : Nat
  num_error : Nat
  is_closed : Bool
  round_open_slot : Nat
  round_open_timestamp : Int
  result : SwitchboardDecimal
  std_deviation : SwitchboardDecimal
  min_response : SwitchboardDecimal
  max_response : SwitchboardDecimal
  oracle_pubkeys_data : Fin 16 → Pubkey
  medians_data : Fin 16 → SwitchboardDecimal
  current_payout : Fin 16 → Int
  medians_fulfilled : Fin 16 → Bool
  errors_fulfilled : Fin 16 → Bool

/-- The all-zero `AggregatorRound` (what `Default` / `mem::zeroed` yields). -/
def AggregatorRound.zeroed : AggregatorRound where
  num_success := 0
  num_error := 0
  is_closed := false
  round_open_slot := 0
  round_open_timestamp := 0
  result := ⟨0, 0⟩
  std_deviation := ⟨0, 0⟩
  min_response := ⟨0, 0⟩
  max_response := ⟨0, 0⟩
  oracle_pubkeys_data := fun _ => Pubkey.zeroed
  medians_data := fun _ => ⟨0, 0⟩
  current_payout := fun _ => 0
  medians_fulfilled := fun _ => false
  errors_fulfilled := fun _ => false

/-- `AggregatorAccountData`, with every field of the source, in source order. -/
structure AggregatorAccountData where
  name : Fin 32 → Nat
  metadata : Fin 128 → Nat
  _reserved1 : Fin 32 → Nat
  queue_pubkey : Pubkey
  oracle_request_batch_size : Nat
  min_oracle_results : Nat
  min_job_results : Nat
  min_update_delay_seconds : Nat
  start_after : Int
  variance_threshold : SwitchboardDecimal
  force_report_period : Int
  expiration : Int
  consecutive_failure_count : Nat
  next_allowed_update_time : Int
  is_locked : Bool
  crank_pubkey : Pubkey
  latest_confirmed_round : AggregatorRound
  current_round : AggregatorRound
  job_pubkeys_data : Fin 16 → Pubkey
  job_hashes : Fin 16 → Hash
  job_pubkeys_size : Nat
  jobs_checksum : Fin 32 → Nat
  authority : Pubkey
  history_buffer : Pubkey
  previous_confirmed_round_result : SwitchboardDecimal
  previous_confirmed_round_slot : Nat
  disable_crank : Bool
  job_weights : Fin 16 → Nat
  creation_timestamp : Int
  resolution_mode : AggregatorResolutionMode
  _ebuf : Fin 138 → Nat

/-- `impl Default for AggregatorAccountData`: the source zero-fills the whole
struct (`std::mem::zeroed()`); byte 0 for the `resolution_mode` discriminant
is `ModeRoundResolution`, every number is 0, every bool is false. -/
def AggregatorAccountData.default : AggregatorAccountData where
  name := fun _ => 0
  metadata := fun _ => 0
  _reserved1 := fun _ => 0
  queue_pubkey := Pubkey.zeroed
  oracle_request_batch_size := 0
  min_oracle_results := 0
  min_job_results := 0
  min_update_delay_seconds := 0
  start_after := 0
  variance_threshold := ⟨0, 0⟩
  force_report_period := 0
  expiration := 0
  consecutive_failure_count := 0
  next_allowed_update_time := 0
  is_locked := false
  crank_pubkey := Pubkey.zeroed
  latest_confirmed_round := AggregatorRound.zeroed
  current_round := AggregatorRound.zeroed
  job_pubkeys_data := fun _ => Pubkey.zeroed
  job_hashes := fun _ => Hash.zeroed
  job_pubkeys_size := 0
  jobs_checksum := fun _ => 0
  authority := Pubkey.zeroed
  history_buffer := Pubkey.zeroed
  previous_confirmed_round_result := ⟨0, 0⟩
  previous_confirmed_round_slot := 0
  disable_crank := false
  job_weights := fun _ => 0
  creation_timestamp := 0
  resolution_mode := AggregatorResolutionMode.ModeRoundResolution
  _ebuf := fun _ => 0

/-- `AggregatorAccountData::get_result`: sliding resolution returns the
latest confirmed result unconditionally; round resolution first requires
`min_oracle_results <= latest_confirmed_round.num_success`, failing with
`SwitchboardError::InvalidAggregatorRound` otherwise. -/
def AggregatorAccountData.get_result (self : AggregatorAccountData) :
    Except SwitchboardError SwitchboardDecimal :=
  if self.resolution_mode = AggregatorResolutionMode.ModeSlidingResolution then
    Except.ok self.latest_confirmed_round.result
  else
    let min_oracle_results := self.min_oracle_results
    let latest_confirmed_round_num_success := self.latest_confirmed_round.num_success
    if min_oracle_results > latest_confirmed_round_num_success then
      Except.error SwitchboardError.InvalidAggregatorRound
    else
      Except.ok self.latest_confirmed_round.result

/-- `10_i128.pow(k)`: overflow-checked power; `none` models the overflow
panic when `10^k` exceeds the `i128` range. -/
def pow10 (k : Nat) : Option Int :=
  if (10 : Int) ^ k ≤ i128Max then some ((10 : Int) ^ k) else none

/-- `i128::checked_mul`: `none` on overflow out of the `i128` range. -/
def checked_mul (a b : Int) : Option Int :=
  if i128Min ≤ a * b ∧ a * b ≤ i128Max then some (a * b) else none

/-- `i128::checked_div`: `none` when the divisor is zero or on
`i128::MIN / -1` overflow; Rust integer division truncates toward zero
(`Int.tdiv`). -/
def checked_div (a b : Int) : Option Int :=
  if b = 0 ∨ (a = i128Min ∧ b = -1) then none else some (a.tdiv b)

/-- `SwitchboardDecimal::scale_to`: match on `scale.cmp(&new_scale)`;
`Greater` divides the mantissa by `10^(scale - new_scale)`, `Less` multiplies
it by `10^(new_scale - scale)`, `Equal` returns it unchanged. The source
`unwrap`s the checked division/multiplication, so `none` models a panic. -/
def SwitchboardDecimal.scale_to (self : SwitchboardDecimal) (new_scale : Nat) :
    Option Int :=
  match compare self.scale new_scale with
  | Ordering.gt => (pow10 (self.scale - new_scale)).bind fun p => checked_div self.mantissa p
  | Ordering.lt => (pow10 (new_scale - self.scale)).bind fun p => checked_mul self.mantissa p
  | Ordering.eq => some self.mantissa

/-- `SwitchboardDecimal::new_with_scale`: rescale the mantissa and repackage
with the new scale (`none` models the panic inherited from `scale_to`). -/
def SwitchboardDecimal.new_with_scale (self : SwitchboardDecimal) (new_scale : Nat) :
    Option SwitchboardDecimal :=
  (self.scale_to new_scale).map fun mantissa => ⟨mantissa, new_scale⟩

/-- `impl From<SwitchboardDecimal> for BorshDecimal`: copies mantissa and
scale verbatim. -/
def BorshDecimal.fromSwitchboardDecimal (s : SwitchboardDecimal) : BorshDecimal :=
  ⟨s.mantissa, s.scale⟩

/-- `impl From<BorshDecimal> for SwitchboardDecimal`: copies mantissa and
scale verbatim. -/
def SwitchboardDecimal.fromBorshDecimal (val : BorshDecimal) : SwitchboardDecimal :=
  ⟨val.mantissa, val.scale⟩

/-- Largest mantissa representable by `rust_decimal::Decimal`:
`2^96 - 1 = 79228162514264337593543950335`. -/
def MAX_I128_REPR : Int := 2 ^ 96 - 1

/-- Largest scale accepted by `rust_decimal::Decimal` (`MAX_PRECISION`). -/
def MAX_PRECISION : Nat := 28

/-- Model of `rust_decimal::Decimal`: a 96-bit mantissa and a scale of at
most 28, denoting mantissa / 10^scale. -/
structure Decimal where
  mantissa : Int
  scale : Nat
deriving DecidableEq

/-- `Decimal::try_from_i128_with_scale`: errors when the scale exceeds
`MAX_PRECISION` or the mantissa magnitude exceeds `2^96 - 1`; otherwise keeps
mantissa and scale verbatim. -/
def Decimal.try_from_i128_with_scale (num : Int) (scale : Nat) : Option Decimal :=
  if MAX_PRECISION < scale then none
  else if MAX_I128_REPR < num then none
  else if num < -MAX_I128_REPR then none
  else some ⟨num, scale⟩

/-- `impl TryInto<Decimal> for &SwitchboardDecimal` (and the by-value twin):
`try_from_i128_with_scale`, with the failure mapped to
`SwitchboardError::DecimalConversionError`. -/
def SwitchboardDecimal.tryIntoDecimal (self : SwitchboardDecimal) :
    Except SwitchboardError Decimal :=
  match Decimal.try_from_i128_with_scale self.mantissa self.scale with
  | some d => Except.ok d
  | none => Except.error SwitchboardError.DecimalConversionError

/-- `Decimal::cmp` compares exact numeric values mantissa / 10^scale;
modelled by the equivalent cross-multiplied integer comparison. -/
def Decimal.cmpVal (a b : Decimal) : Ordering :=
  compare (a.mantissa * 10 ^ b.scale) (b.mantissa * 10 ^ a.scale)

/-- `impl Ord for SwitchboardDecimal`: converts both sides to `Decimal` with
`unwrap` (so `none` models the panic on an unrepresentable operand), then
compares numerically. -/
def SwitchboardDecimal.cmp (self other : SwitchboardDecimal) : Option Ordering :=
  match self.tryIntoDecimal, other.tryIntoDecimal with
  | Except.ok s, Except.ok o => some (Decimal.cmpVal s o)
  | _, _ => none

/-- The derived `PartialEq` of `SwitchboardDecimal`: structural comparison of
the raw (mantissa, scale) pair. -/
def SwitchboardDecimal.structuralEq (self other : SwitchboardDecimal) : Bool :=
  self.mantissa == other.mantissa && self.scale == other.scale

/-- The value of a `Decimal` truncated toward zero to an integer
(`Decimal::trunc` viewed as an integer). -/
def Decimal.trunc (d : Decimal) : Int :=
  d.mantissa.tdiv (10 ^ d.scale)

/-- `Decimal::to_u64` (num-traits `ToPrimitive`): truncate toward zero, then
range-check against `u64`. -/
def Decimal.to_u64 (d : Decimal) : Option Int :=
  if 0 ≤ d.trunc ∧ d.trunc ≤ u64Max then some d.trunc else none

/-- `Decimal::to_i64` (num-traits `ToPrimitive`): truncate toward zero, then
range-check against `i64`. -/
def Decimal.to_i64 (d : Decimal) : Option Int :=
  if i64Min ≤ d.trunc ∧ d.trunc ≤ i64Max then some d.trunc else none

/-- `Decimal::to_f64` never returns `None` for a valid `Decimal`; the
floating-point payload itself is outside the embedding, so the model keeps
only the (always successful) verdict. -/
def Decimal.to_f64_verdict (_ : Decimal) : Option Unit :=
  some ()

/-- `impl TryInto<u64> for SwitchboardDecimal`: the internal `Decimal`
conversion is `unwrap`ped (panic → `.trap`); `to_u64` failure becomes
`SwitchboardError::IntegerOverflowError`. -/
def SwitchboardDecimal.try_into_u64 (self : SwitchboardDecimal) : RustOutcome Int :=
  match self.tryIntoDecimal with
  | Except.error _ => RustOutcome.trap
  | Except.ok dec =>
    match dec.to_u64 with
    | some v => RustOutcome.ok v
    | none => RustOutcome.err SwitchboardError.IntegerOverflowError

/-- `impl TryInto<i64> for SwitchboardDecimal`: the internal `Decimal`
conversion is `unwrap`ped (panic → `.trap`); `to_i64` failure becomes
`SwitchboardError::IntegerOverflowError`. -/
def SwitchboardDecimal.try_into_i64 (self : SwitchboardDecimal) : RustOutcome Int :=
  match self.tryIntoDecimal with
  | Except.error _ => RustOutcome.trap
  | Except.ok dec =>
    match dec.to_i64 with
    | some v => RustOutcome.ok v
    | none => RustOutcome.err SwitchboardError.IntegerOverflowError

/-- `impl TryInto<f64> for SwitchboardDecimal`: the internal `Decimal`
conversion is `unwrap`ped (panic → `.trap`); a `to_f64` failure would become
`SwitchboardError::IntegerOverflowError` but never occurs. -/
def SwitchboardDecimal.try_into_f64 (self : SwitchboardDecimal) : RustOutcome Unit :=
  match self.tryIntoDecimal with
  | Except.error _ => RustOutcome.trap
  | Except.ok dec =>
    match dec.to_f64_verdict with
    | some v => RustOutcome.ok v
    | none => RustOutcome.err SwitchboardError.IntegerOverflowError

/-- If `pow10 k` returns a value, it is `10 ^ k` and fits in `i128`. -/
theorem pow10_some {k : Nat} {p : Int} (h : pow10 k = some p) :
    p = (10 : Int) ^ k ∧ (10 : Int) ^ k ≤ i128Max := by
  unfold pow10 at h
  by_cases hc : (10 : Int) ^ k ≤ i128Max
  · rw [if_pos hc] at h
    exact ⟨(Option.some_inj.mp h).symm, hc⟩
  · rw [if_neg hc] at h
    exact absurd h (by simp)

/-- `pow10 k` overflows exactly when `10 ^ k` exceeds the `i128` range. -/
theorem pow10_none (k : Nat) : pow10 k = none ↔ i128Max < (10 : Int) ^ k := by
  unfold pow10
  by_cases hc : (10 : Int) ^ k ≤ i128Max
  · rw [if_pos hc]
    exact ⟨fun h => absurd h (by simp), fun h => absurd hc (not_le.mpr h)⟩
  · rw [if_neg hc]
    exact ⟨fun _ => not_le.mp hc, fun _ => rfl⟩

/-- If `checked_mul` returns a value, it is the exact product, in range. -/
theorem checked_mul_some {a b m : Int} (h : checked_mul a b = some m) :
    m = a * b ∧ i128Min ≤ a * b ∧ a * b ≤ i128Max := by
  unfold checked_mul at h
  by_cases hc : i128Min ≤ a * b ∧ a * b ≤ i128Max
  · rw [if_pos hc] at h
    exact ⟨(Option.some_inj.mp h).symm, hc⟩
  · rw [if_neg hc] at h
    exact absurd h (by simp)

/-- `checked_mul` overflows exactly when the product leaves the `i128` range. -/
theorem checked_mul_none {a b : Int} :
    checked_mul a b = none ↔ (a * b < i128Min ∨ i128Max < a * b) := by
  unfold checked_mul
  by_cases hc : i128Min ≤ a * b ∧ a * b ≤ i128Max
  · rw [if_pos hc]
    constructor
    · intro h; exact absurd h (by simp)
    · rintro (h | h)
      · exact absurd hc.1 (not_le.mpr h)
      · exact absurd hc.2 (not_le.mpr h)
  · rw [if_neg hc]
    constructor
    · intro _
      rcases not_and_or.mp hc with h | h
      · exact Or.inl (not_le.mp h)
      · exact Or.inr (not_le.mp h)
    · intro _; rfl

/-- Division by a positive divisor never fails in `checked_div`. -/
theorem checked_div_pos {b : Int} (a : Int) (hb : 0 < b) :
    checked_div a b = some (a.tdiv b) := by
  have hne : ¬ (b = 0 ∨ (a = i128Min ∧ b = -1)) := by
    rintro (h0 | ⟨-, hm⟩) <;> omega
  unfold checked_div
  rw [if_neg hne]

/-- C1: in round-resolution mode, `get_result` fails with the
`InvalidAggregatorRound` (quorum) error exactly when
`latest_confirmed_round.num_success < min_oracle_results`, and otherwise
returns `latest_confirmed_round.result` unchanged. -/
theorem get_result_round_quorum (a : AggregatorAccountData)
    (h : a.resolution_mode = AggregatorResolutionMode.ModeRoundResolution) :
    (a.get_result = Except.error SwitchboardError.InvalidAggregatorRound ↔
      a.latest_confirmed_round.num_success < a.min_oracle_results) ∧
    (a.min_oracle_results ≤ a.latest_confirmed_round.num_success →
      a.get_result = Except.ok a.latest_confirmed_round.result) := by
  simp only [AggregatorAccountData.get_result, h, gt_iff_lt]
  by_cases hlt : a.latest_confirmed_round.num_success < a.min_oracle_results
  · rw [if_pos hlt]
    exact ⟨by simp [hlt], fun hle => absurd hlt (by omega)⟩
  · rw [if_neg hlt]
    exact ⟨by simp [hlt], fun _ => rfl⟩

/-- A round-resolution account whose quorum of 3 exceeds its 2 successes. -/
def acctQuorum : AggregatorAccountData :=
  { AggregatorAccountData.default with
    min_oracle_results := 3
    latest_confirmed_round :=
      { AggregatorRound.zeroed with num_success := 2, result := ⟨155, 1⟩ } }

/-- C1 witness: the quorum characterization instantiated at a concrete
round-resolution account with `min_oracle_results = 3`, `num_success = 2`. -/
theorem get_result_round_quorum_w :
    (acctQuorum.get_result = Except.error SwitchboardError.InvalidAggregatorRound ↔
      acctQuorum.latest_confirmed_round.num_success < acctQuorum.min_oracle_results) ∧
    (acctQuorum.min_oracle_results ≤ acctQuorum.latest_confirmed_round.num_success →
      acctQuorum.get_result = Except.ok acctQuorum.latest_confirmed_round.result) :=
  get_result_round_quorum acctQuorum rfl

/-- C2: with sliding resolution, `get_result` returns
`latest_confirmed_round.result` unconditionally — no quorum check against
`min_oracle_results` or `num_success` is performed. -/
theorem get_result_sliding (a : AggregatorAccountData)
    (h : a.resolution_mode = AggregatorResolutionMode.ModeSlidingResolution) :
    a.get_result = Except.ok a.latest_confirmed_round.result := by
  simp [AggregatorAccountData.get_result, h]

/-- A sliding-resolution account with zero successes. -/
def acctSliding : AggregatorAccountData :=
  { AggregatorAccountData.default with
    resolution_mode := AggregatorResolutionMode.ModeSlidingResolution
    min_oracle_results := 3
    latest_confirmed_round :=
      { AggregatorRound.zeroed with num_success := 0, result := ⟨42, 3⟩ } }

/-- C2 witness: a sliding-resolution account with `num_success = 0` and a
positive quorum threshold still resolves to its confirmed result. -/
theorem get_result_sliding_w :
    acctSliding.get_result = Except.ok acctSliding.latest_confirmed_round.result :=
  get_result_sliding acctSliding rfl

/-- C3: whenever `scale_to` returns, an up-scale is the exact product by the
power of ten and a down-scale is integer division truncating toward zero
(`Int.tdiv`); in particular `{mantissa = 123, scale = 2}` rescaled to scale 1
yields mantissa 12. -/
theorem scale_to_exact :
    (∀ (d : SwitchboardDecimal) (ns : Nat) (m : Int), d.scale_to ns = some m →
      (d.scale < ns → m = d.mantissa * 10 ^ (ns - d.scale)) ∧
      (ns < d.scale → m = d.mantissa.tdiv (10 ^ (d.scale - ns)))) ∧
    SwitchboardDecimal.scale_to ⟨123, 2⟩ 1 = some 12 := by
  refine ⟨?_, by decide⟩
  intro d ns m h
  unfold SwitchboardDecimal.scale_to at h
  rcases Nat.lt_trichotomy d.scale ns with hlt | heq | hgt
  · rw [show compare d.scale ns = Ordering.lt from Nat.compare_eq_lt.mpr hlt] at h
    rcases Option.bind_eq_some.mp h with ⟨p, hp, hm⟩
    rcases pow10_some hp with ⟨hpv, -⟩
    rcases checked_mul_some hm with ⟨hmv, -, -⟩
    exact ⟨fun _ => by rw [hmv, hpv], fun hc => absurd hc (by omega)⟩
  · rw [show compare d.scale ns = Ordering.eq from Nat.compare_eq_eq.mpr heq] at h
    exact ⟨fun hc => absurd hc (by omega), fun hc => absurd hc (by omega)⟩
  · rw [show compare d.scale ns = Ordering.gt from Nat.compare_eq_gt.mpr hgt] at h
    rcases Option.bind_eq_some.mp h with ⟨p, hp, hm⟩
    rcases pow10_some hp with ⟨hpv, -⟩
    rw [hpv, checked_div_pos d.mantissa (pow_pos (by norm_num) _)] at hm
    exact ⟨fun hc => absurd hc (by omega), fun _ => (Option.some_inj.mp hm).symm⟩

/-- C3 witness: the exactness statement instantiated at the concrete
down-scale of `{mantissa = 123, scale = 2}` to scale 1. -/
theorem scale_to_exact_w :
    ((2 : Nat) < 1 → (12 : Int) = 123 * 10 ^ (1 - 2)) ∧
    ((1 : Nat) < 2 → (12 : Int) = Int.tdiv 123 (10 ^ (2 - 1))) :=
  scale_to_exact.1 ⟨123, 2⟩ 1 12 (by decide)

/-- C4 counterexample: at `{mantissa = i128::MAX, scale = 0}` rescaled to
scale 1, the multiplication overflows and `scale_to` panics (the source
`unwrap`s the failed `checked_mul`, modelled by `none`); no error value is
produced — the return type `i128` has no error channel at all. -/
theorem scale_to_trap_cex :
    SwitchboardDecimal.scale_to ⟨i128Max, 0⟩ 1 = none := by
  decide

/-- C4 amended: `scale_to` panics (rather than returning an error value)
exactly when scaling up overflows the `i128` range — through the power of ten
itself or through the final product — or when scaling down needs a power of
ten that overflows `i128`; the division itself can never fail. -/
theorem scale_to_trap_iff (d : SwitchboardDecimal) (ns : Nat) :
    d.scale_to ns = none ↔
      (d.scale < ns ∧ (i128Max < (10 : Int) ^ (ns - d.scale) ∨
        d.mantissa * 10 ^ (ns - d.scale) < i128Min ∨
        i128Max < d.mantissa * 10 ^ (ns - d.scale))) ∨
      (ns < d.scale ∧ i128Max < (10 : Int) ^ (d.scale - ns)) := by
  unfold SwitchboardDecimal.scale_to
  rcases Nat.lt_trichotomy d.scale ns with hlt | heq | hgt
  · rw [show compare d.scale ns = Ordering.lt from Nat.compare_eq_lt.mpr hlt]
    cases hp : pow10 (ns - d.scale) with
    | none =>
      have hk := (pow10_none (ns - d.scale)).mp hp
      simp only [Option.none_bind]
      exact ⟨fun _ => Or.inl ⟨hlt, Or.inl hk⟩, fun _ => trivial⟩
    | some p =>
      rcases pow10_some hp with ⟨hpv, hpmax⟩
      subst hpv
      simp only [Option.some_bind]
      rw [checked_mul_none]
      constructor
      · intro h; exact Or.inl ⟨hlt, Or.inr h⟩
      · rintro (⟨-, (hx | hx | hx)⟩ | ⟨hc, -⟩)
        · exact absurd hpmax (not_le.mpr hx)
        · exact Or.inl hx
        · exact Or.inr hx
        · exact absurd hc (by omega)
  · rw [show compare d.scale ns = Ordering.eq from Nat.compare_eq_eq.mpr heq]
    constructor
    · intro h; exact absurd h (by simp)
    · rintro (⟨hc, -⟩ | ⟨hc, -⟩) <;> exact absurd hc (by omega)
  · rw [show compare d.scale ns = Ordering.gt from Nat.compare_eq_gt.mpr hgt]
    cases hp : pow10 (d.scale - ns) with
    | none =>
      have hk := (pow10_none (d.scale - ns)).mp hp
      simp only [Option.none_bind]
      exact ⟨fun _ => Or.inr ⟨hgt, hk⟩, fun _ => trivial⟩
    | some p =>
      rcases pow10_some hp with ⟨hpv, hpmax⟩
      subst hpv
      simp only [Option.some_bind]
      rw [checked_div_pos d.mantissa (pow_pos (by norm_num) _)]
      constructor
      · intro h; exact absurd h (by simp)
      · rintro (⟨hc, -⟩ | ⟨-, hx⟩)
        · exact absurd hc (by omega)
        · exact absurd hpmax (not_le.mpr hx)

/-- C5: scaling up (to `s2 ≥ scale`) and then rescaling the result back down
to the original scale reproduces the original mantissa exactly, whenever the
up-scale did not overflow. -/
theorem scale_to_round_trip (d : SwitchboardDecimal) (s2 : Nat) (m : Int)
    (hle : d.scale ≤ s2) (h : d.scale_to s2 = some m) :
    SwitchboardDecimal.scale_to ⟨m, s2⟩ d.scale = some d.mantissa := by
  unfold SwitchboardDecimal.scale_to at h ⊢
  rcases Nat.eq_or_lt_of_le hle with heq | hlt
  · rw [show compare d.scale s2 = Ordering.eq from Nat.compare_eq_eq.mpr heq] at h
    rw [show compare (SwitchboardDecimal.mk m s2).scale d.scale = Ordering.eq from
      Nat.compare_eq_eq.mpr heq.symm]
    exact congrArg some (Option.some_inj.mp h).symm
  · rw [show compare d.scale s2 = Ordering.lt from Nat.compare_eq_lt.mpr hlt] at h
    rcases Option.bind_eq_some.mp h with ⟨p, hp, hm⟩
    rcases pow10_some hp with ⟨hpv, hpmax⟩
    rcases checked_mul_some hm with ⟨hmv, -, -⟩
    rw [show compare (SwitchboardDecimal.mk m s2).scale d.scale = Ordering.gt from
      Nat.compare_eq_gt.mpr hlt]
    have hps : pow10 (s2 - d.scale) = some ((10 : Int) ^ (s2 - d.scale)) := by
      unfold pow10
      rw [if_pos hpmax]
    show (pow10 (s2 - d.scale)).bind
      (fun p => checked_div (SwitchboardDecimal.mk m s2).mantissa p) = some d.mantissa
    rw [hps, Option.some_bind,
      checked_div_pos (SwitchboardDecimal.mk m s2).mantissa (pow_pos (by norm_num) _)]
    have : (SwitchboardDecimal.mk m s2).mantissa = d.mantissa * 10 ^ (s2 - d.scale) := by
      rw [show (SwitchboardDecimal.mk m s2).mantissa = m from rfl, hmv, hpv]
    rw [this, Int.mul_tdiv_cancel _ (ne_of_gt (pow_pos (by norm_num) _))]

/-- C5 witness: `{mantissa = 7, scale = 1}` scaled up to scale 3 gives
mantissa 700, and scaling that back down to scale 1 returns 7. -/
theorem scale_to_round_trip_w :
    SwitchboardDecimal.scale_to ⟨700, 3⟩ 1 = some 7 :=
  scale_to_round_trip ⟨7, 1⟩ 3 700 (by decide) (by decide)

/-- C6: `{mantissa = 150, scale = 2}` and `{mantissa = 15, scale = 1}`
compare as numerically equal under `cmp` while the derived structural
equality rejects them; and in general two decimals of equal numeric value but
different scale are never structurally equal. -/
theorem cmp_structural_divergence :
    SwitchboardDecimal.cmp ⟨150, 2⟩ ⟨15, 1⟩ = some Ordering.eq ∧
    SwitchboardDecimal.structuralEq ⟨150, 2⟩ ⟨15, 1⟩ = false ∧
    ∀ d1 d2 : SwitchboardDecimal,
      d1.mantissa * 10 ^ d2.scale = d2.mantissa * 10 ^ d1.scale →
      d1.scale ≠ d2.scale →
      SwitchboardDecimal.structuralEq d1 d2 = false := by
  refine ⟨by decide, by decide, ?_⟩
  intro d1 d2 _ hs
  have hb : (d1.scale == d2.scale) = false := by simpa using hs
  simp [SwitchboardDecimal.structuralEq, hb]

/-- C6 witness: the general divergence applied to the numerically equal pair
`{mantissa = 1500, scale = 3}` and `{mantissa = 15, scale = 1}`. -/
theorem cmp_structural_divergence_w :
    SwitchboardDecimal.structuralEq ⟨1500, 3⟩ ⟨15, 1⟩ = false :=
  cmp_structural_divergence.2.2 ⟨1500, 3⟩ ⟨15, 1⟩ (by decide) (by decide)

/-- C7: the wire bridge between `SwitchboardDecimal` and `BorshDecimal` is
total, lossless, and the two directions are mutually inverse on every
(mantissa, scale) pair; in particular `{mantissa = -42, scale = 5}`
round-trips exactly. -/
theorem borsh_round_trip :
    (∀ s : SwitchboardDecimal,
      SwitchboardDecimal.fromBorshDecimal (BorshDecimal.fromSwitchboardDecimal s) = s) ∧
    (∀ b : BorshDecimal,
      BorshDecimal.fromSwitchboardDecimal (SwitchboardDecimal.fromBorshDecimal b) = b) ∧
    SwitchboardDecimal.fromBorshDecimal
      (BorshDecimal.fromSwitchboardDecimal ⟨-42, 5⟩) = ⟨-42, 5⟩ :=
  ⟨fun _ => rfl, fun _ => rfl, rfl⟩

/-- C8 counterexample: at `{mantissa = i128::MAX, scale = 0}` the internal
conversion to the 96-bit `Decimal` fails and is `unwrap`ped, so all three
conversions panic; none of them produces the `IntegerOverflowError` value and
the `f64` conversion does not succeed. -/
theorem try_into_i128max_cex :
    SwitchboardDecimal.try_into_u64 ⟨i128Max, 0⟩ = RustOutcome.trap ∧
    SwitchboardDecimal.try_into_i64 ⟨i128Max, 0⟩ = RustOutcome.trap ∧
    SwitchboardDecimal.try_into_f64 ⟨i128Max, 0⟩ = RustOutcome.trap ∧
    SwitchboardDecimal.try_into_u64 ⟨i128Max, 0⟩ ≠
      RustOutcome.err SwitchboardError.IntegerOverflowError ∧
    SwitchboardDecimal.try_into_i64 ⟨i128Max, 0⟩ ≠
      RustOutcome.err SwitchboardError.IntegerOverflowError ∧
    SwitchboardDecimal.try_into_f64 ⟨i128Max, 0⟩ ≠ RustOutcome.ok () := by
  decide

/-- C8 amended: for the largest mantissa representable in the internal
96-bit decimal domain, `{mantissa = 2^96 - 1, scale = 0}`, conversion to u64
fails with `IntegerOverflowError`, conversion to i64 fails likewise, and
conversion to f64 succeeds; at `{mantissa = i128::MAX, scale = 0}` all three
conversions instead panic on the `unwrap`ped internal decimal conversion. -/
theorem try_into_overflow_amended :
    SwitchboardDecimal.try_into_u64 ⟨MAX_I128_REPR, 0⟩ =
      RustOutcome.err SwitchboardError.IntegerOverflowError ∧
    SwitchboardDecimal.try_into_i64 ⟨MAX_I128_REPR, 0⟩ =
      RustOutcome.err SwitchboardError.IntegerOverflowError ∧
    SwitchboardDecimal.try_into_f64 ⟨MAX_I128_REPR, 0⟩ = RustOutcome.ok () ∧
    SwitchboardDecimal.try_into_u64 ⟨i128Max, 0⟩ = RustOutcome.trap ∧
    SwitchboardDecimal.try_into_i64 ⟨i128Max, 0⟩ = RustOutcome.trap ∧
    SwitchboardDecimal.try_into_f64 ⟨i128Max, 0⟩ = RustOutcome.trap := by
  decide

/-- C9: the all-zero account has round resolution and a zero quorum
threshold, and `get_result` succeeds on it, returning the zero decimal —
no uninitialized-account error is raised. -/
theorem get_result_zeroed :
    AggregatorAccountData.default.resolution_mode =
      AggregatorResolutionMode.ModeRoundResolution ∧
    AggregatorAccountData.default.min_oracle_results = 0 ∧
    AggregatorAccountData.default.get_result = Except.ok ⟨0, 0⟩ :=
  ⟨rfl, rfl, rfl⟩

/-- C10: `get_result` depends only on `resolution_mode`,
`min_oracle_results` and `latest_confirmed_round`; two accounts agreeing on
those three fields get identical results, whatever their other fields. -/
theorem get_result_field_independence (a b : AggregatorAccountData)
    (h1 : a.resolution_mode = b.resolution_mode)
    (h2 : a.min_oracle_results = b.min_oracle_results)
    (h3 : a.latest_confirmed_round = b.latest_confirmed_round) :
    a.get_result = b.get_result := by
  unfold AggregatorAccountData.get_result
  rw [h1, h2, h3]

/-- An account differing from the zero default only in fields `get_result`
never reads: `current_round`, `consecutive_failure_count`, `authority`. -/
def acctNoisy : AggregatorAccountData :=
  { AggregatorAccountData.default with
    current_round := { AggregatorRound.zeroed with num_success := 99 }
    consecutive_failure_count := 7
    authority := fun _ => 1 }

/-- C10 witness: the zero default and `acctNoisy` agree on the three
relevant fields and `get_result` treats them identically. -/
theorem get_result_field_independence_w :
    AggregatorAccountData.default.get_result = acctNoisy.get_result :=
  get_result_field_independence AggregatorAccountData.default acctNoisy rfl rfl rfl

end Switchboard
